import Mathlib

/-
Shallow embedding of src/models/senet.py (1-D SE-ResNet ECG classifier).

Tensors are rational-valued and indexed by Fin-bounded coordinates
(batch, channel/step, position/feature).  The host framework's
transcendental activations (exp, tanh, sigmoid) are passed to the forward
functions as explicit function parameters, exactly as the repository
delegates them to torch; relu is max 0.  Framework modules that the
repository merely stores and calls as opaque callables (the convolutions
and batch norms inside the residual blocks, nn.LSTM / nn.GRU, and the
SelectAdaptivePool1d imported from the missing utils module) are abstract
function-valued fields, mirroring Python's untyped attribute calls;
everything the repository itself computes is translated line by line.
-/

/-- Rational tensor of shape (b, c, l): batch, channel/step, position/feature. -/
abbrev Ten3 (b c l : ℕ) : Type := Fin b → Fin c → Fin l → ℚ

/-- Untyped (dynamically shaped) tensor, mirroring the untyped `forward`
signature of the `Bottleneck` base class (senet.py lines 178-203), whose
submodule attributes are opaque callables set by its subclasses. -/
abbrev DynTensor : Type := ℕ → ℕ → ℕ → ℚ

/-- Pointwise rectified linear unit, the exact semantics of
`F.relu` / `nn.ReLU`: max(0, q). -/
def relu (q : ℚ) : ℚ := max 0 q

/-- Pointwise relu on an untyped tensor. -/
def dynRelu (t : DynTensor) : DynTensor := fun b c p => relu (t b c p)

/-- `nn.Linear(inF, outF)`: a weight matrix of shape (outF, inF) and a bias
vector of shape (outF). -/
structure Linear (inF outF : ℕ) where
  weight : Fin outF → Fin inF → ℚ
  bias : Fin outF → ℚ

/-- Application of `nn.Linear` to a vector: `x A^T + b`. -/
def Linear.apply {inF outF : ℕ} (lin : Linear inF outF) (v : Fin inF → ℚ) :
    Fin outF → ℚ :=
  fun k => (∑ i, lin.weight k i * v i) + lin.bias k

/-- Application of `nn.Linear` to each row of a batch of vectors. -/
def Linear.applyRows {b inF outF : ℕ} (lin : Linear inF outF)
    (x : Fin b → Fin inF → ℚ) : Fin b → Fin outF → ℚ :=
  fun bi => lin.apply (x bi)

/-- State of the `Attention` module (senet.py lines 22-38): a learned column
vector `weight` of shape (feature_dim, 1), the `bias` flag, and — when the
flag is set — a learned vector `b` of shape (step_dim). -/
structure Attention (feature_dim step_dim : ℕ) where
  bias : Bool
  weight : Fin feature_dim → ℚ
  b : Fin step_dim → ℚ

/-- senet.py lines 44-52: `eij = mm(x.view(-1, feature_dim), weight)
.view(-1, step_dim)`, then `eij = eij + b` when `bias` is set, then
`eij = tanh(eij)`.  For an input of shape (bsz, step_dim, feature_dim) the
reshape-matmul-reshape computes exactly the per-(batch, step) dot product
with the weight column. -/
def Attention.eij {bsz fd sd : ℕ} (tanhf : ℚ → ℚ) (att : Attention fd sd)
    (x : Ten3 bsz sd fd) (bi : Fin bsz) (t : Fin sd) : ℚ :=
  tanhf ((∑ f, x bi t f * att.weight f) + if att.bias then att.b t else 0)

/-- senet.py line 53: `a = torch.exp(eij)`. -/
def Attention.expScore {bsz fd sd : ℕ} (expf tanhf : ℚ → ℚ)
    (att : Attention fd sd) (x : Ten3 bsz sd fd) (bi : Fin bsz) (t : Fin sd) : ℚ :=
  expf (Attention.eij tanhf att x bi t)

/-- senet.py line 58 on the `mask = None` path:
`a = a / torch.sum(a, 1, keepdim=True) + 1e-10` — the division binds before
the addition, so the constant is added after normalizing. -/
def Attention.coeffs {bsz fd sd : ℕ} (expf tanhf : ℚ → ℚ)
    (att : Attention fd sd) (x : Ten3 bsz sd fd) (bi : Fin bsz) (t : Fin sd) : ℚ :=
  Attention.expScore expf tanhf att x bi t
      / (∑ t2, Attention.expScore expf tanhf att x bi t2)
    + 1 / 10 ^ 10

/-- senet.py lines 60-61: `weighted_input = x * torch.unsqueeze(a, -1)`
followed by `torch.sum(weighted_input, 1)`: the step dimension is collapsed
and the result has shape (batch, feature_dim). -/
def Attention.forward {bsz fd sd : ℕ} (expf tanhf : ℚ → ℚ)
    (att : Attention fd sd) (x : Ten3 bsz sd fd) (bi : Fin bsz) (f : Fin fd) : ℚ :=
  ∑ t, x bi t f * Attention.coeffs expf tanhf att x bi t

/-- State of `SEModule` (senet.py lines 157-166): the two 1x1 convolutions
`fc1 : channels → channels // reduction` and
`fc2 : channels // reduction → channels` (kernel size 1, default bias). -/
structure SEModule (channels reduction : ℕ) where
  fc1_weight : Fin (channels / reduction) → Fin channels → ℚ
  fc1_bias : Fin (channels / reduction) → ℚ
  fc2_weight : Fin channels → Fin (channels / reduction) → ℚ
  fc2_bias : Fin channels → ℚ

/-- `SEModule.__init__` (senet.py lines 159-166).  Line 160 is
`assert channels > reduction, "Make sure your input channel bigger than
reduction which equals to {reduction}"`; a failed Python assert raises
AssertionError, modelled as `Except.error` with the formatted message. -/
def SEModule.init (channels reduction : ℕ)
    (w1 : Fin (channels / reduction) → Fin channels → ℚ)
    (b1 : Fin (channels / reduction) → ℚ)
    (w2 : Fin channels → Fin (channels / reduction) → ℚ)
    (b2 : Fin channels → ℚ) : Except String (SEModule channels reduction) :=
  if channels > reduction then
    Except.ok ⟨w1, b1, w2, b2⟩
  else
    Except.error
      ("Make sure your input channel bigger than reduction which equals to "
        ++ toString reduction)

/-- `SEModule.forward` (senet.py lines 168-175), line by line:
`x = avg_pool(x)` (AdaptiveAvgPool1d(1): mean over the length dimension),
`x = fc1(x)`, `x = relu(x)`, `x = fc2(x)`, `x = sigmoid(x)`, and finally
`module_input * x`, which broadcasts the (channels, 1) gate over the length
dimension of the input. -/
def SEModule.forward {bsz c r l : ℕ} (sigmoidf : ℚ → ℚ) (se : SEModule c r)
    (x : Ten3 bsz c l) : Ten3 bsz c l :=
  let pooled : Fin bsz → Fin c → ℚ := fun bi i => (∑ j, x bi i j) / (l : ℚ)
  let h1 : Fin bsz → Fin (c / r) → ℚ :=
    fun bi k => (∑ i, se.fc1_weight k i * pooled bi i) + se.fc1_bias k
  let h2 : Fin bsz → Fin (c / r) → ℚ := fun bi k => relu (h1 bi k)
  let h3 : Fin bsz → Fin c → ℚ :=
    fun bi i => (∑ k, se.fc2_weight i k * h2 bi k) + se.fc2_bias i
  let g : Fin bsz → Fin c → ℚ := fun bi i => sigmoidf (h3 bi i)
  fun bi i j => x bi i j * g bi i

/-- State of `HighwayMLP` (senet.py lines 71-87): two linear layers of the
same size plus the two activation callables stored by the constructor.  The
activations act on whole vectors, exactly as arbitrary callables do in the
source (the defaults are relu and softmax; SENet instantiates relu and
sigmoid). -/
structure HighwayMLP (n : ℕ) where
  activation_function : (Fin n → ℚ) → (Fin n → ℚ)
  gate_activation : (Fin n → ℚ) → (Fin n → ℚ)
  normal_layer : Linear n n
  gate_layer : Linear n n

/-- `HighwayMLP.forward` (senet.py lines 89-98):
`normal_layer_result = activation_function(normal_layer(x))`,
`gate_layer_result = gate_activation(gate_layer(x))`, and the returned value
`mul(normal_layer_result, gate_layer_result) + mul(1 - gate_layer_result, x)`. -/
def HighwayMLP.forward {n : ℕ} (h : HighwayMLP n) (x : Fin n → ℚ) : Fin n → ℚ :=
  let normal_layer_result := h.activation_function (h.normal_layer.apply x)
  let gate_layer_result := h.gate_activation (h.gate_layer.apply x)
  fun i => normal_layer_result i * gate_layer_result i
    + (1 - gate_layer_result i) * x i

/-- The `Bottleneck` base class (senet.py lines 178-203) only wires together
attribute calls; the attributes themselves (convolutions, batch norms, the
SE module, the optional downsample) are modules installed by the subclasses
and are therefore opaque callables here. -/
structure Bottleneck where
  conv1 : DynTensor → DynTensor
  bn1 : DynTensor → DynTensor
  conv2 : DynTensor → DynTensor
  bn2 : DynTensor → DynTensor
  conv3 : DynTensor → DynTensor
  bn3 : DynTensor → DynTensor
  se_module : DynTensor → DynTensor
  downsample : Option (DynTensor → DynTensor)

/-- `Bottleneck.forward` (senet.py lines 183-203), statement by statement:
`residual = x`; conv1-bn1-relu; conv2-bn2-relu; conv3-bn3;
`if downsample is not None: residual = downsample(x)`;
`out = se_module(out) + residual`; `out = relu(out)`. -/
def Bottleneck.forward (blk : Bottleneck) (x : DynTensor) : DynTensor :=
  let residual := x
  let out := blk.conv1 x
  let out := blk.bn1 out
  let out := dynRelu out
  let out := blk.conv2 out
  let out := blk.bn2 out
  let out := dynRelu out
  let out := blk.conv3 out
  let out := blk.bn3 out
  let residual := match blk.downsample with
    | some d => d x
    | none => residual
  let out := blk.se_module out + residual
  dynRelu out

/-- Kinds of torch modules occurring in this repository's model tree. -/
inductive TorchModuleKind where
  | conv1d
  | conv2d
  | batchNorm1d
  | batchNorm2d
  | relu
  | maxPool1d
  | adaptiveAvgPool1d
  | adaptiveMaxPool1d
  | sigmoid
  | linear
  | lstm
  | gru
  | sequential
  | moduleList
  | selectAdaptivePool1d
  | attention
  | highwayMLP
  | seModule
  | bottleneck
  | seResNetBlock
  | seNet
  deriving DecidableEq

/-- A torch module as seen by `_weight_init`: its runtime class together
with its (flattened) weight and bias parameters. -/
structure TorchModule where
  kind : TorchModuleKind
  weight : List ℚ
  bias : List ℚ

/-- `_weight_init` (senet.py lines 63-68): `kaiming_normal_(m.weight)` when
`isinstance(m, nn.Conv2d)` (the random kaiming draw is the parameter `kW`),
constant 1 weights / 0 biases when `isinstance(m, nn.BatchNorm2d)`, and no
effect on any other module. -/
def weight_init (kW : List ℚ) (m : TorchModule) : TorchModule :=
  match m.kind with
  | TorchModuleKind.conv2d => { m with weight := kW }
  | TorchModuleKind.batchNorm2d =>
      { m with weight := m.weight.map fun _ => 1,
               bias := m.bias.map fun _ => 0 }
  | _ => m

/-- `SENet.__init__` state (senet.py lines 339-468), shape-polymorphic in
the batch size and in the intermediate shapes produced by the five stages.
The fields are exactly the submodules and attributes the constructor
stores, in source order.  `layer0`..`layer4` (nn.Sequential of framework
convolutions / batch norms / pooling and of the residual blocks built by
`_make_layer`), `avg_pool` (SelectAdaptivePool1d, imported from the utils
module that is not part of this repository), `lstm` and `gru` (framework
recurrent modules returning an (output, hidden) pair) are opaque callables.
`last_linear` is `nn.Linear(256, 9)`, hardcoded at line 461 —
independently of the `num_classes` argument, which is merely stored.
`attention_layer` is an `Attention` with feature_dim 128*2 = 256. -/
structure SENet (bsz cin lin c0 l0 c1 l1 c2 l2 c3 l3 c4 l4 : ℕ) where
  inplanes : ℕ
  num_classes : ℕ
  drop_rate : ℚ
  layer0 : Ten3 bsz cin lin → Ten3 bsz c0 l0
  layer1 : Ten3 bsz c0 l0 → Ten3 bsz c1 l1
  layer2 : Ten3 bsz c1 l1 → Ten3 bsz c2 l2
  layer3 : Ten3 bsz c2 l2 → Ten3 bsz c3 l3
  layer4 : Ten3 bsz c3 l3 → Ten3 bsz c4 l4
  avg_pool : Ten3 bsz c4 l4 → Ten3 bsz c4 1
  num_features : ℕ
  highway_number : ℕ
  highway_layers : List (HighwayMLP c4)
  last_linear : Linear 256 9
  lstm : Ten3 bsz c4 l4 → Ten3 bsz c4 256 × Ten3 2 bsz 128
  gru : Ten3 bsz c4 l4 → Ten3 bsz c4 256 × Ten3 2 bsz 128
  attention_layer : Attention 256 c4

variable {bsz cin lin c0 l0 c1 l1 c2 l2 c3 l3 c4 l4 : ℕ}

/-- `SENet.forward_features` (senet.py lines 501-507): the five stages in
order. -/
def SENet.forward_features (m : SENet bsz cin lin c0 l0 c1 l1 c2 l2 c3 l3 c4 l4)
    (x : Ten3 bsz cin lin) : Ten3 bsz c4 l4 :=
  m.layer4 (m.layer3 (m.layer2 (m.layer1 (m.layer0 x))))

/-- `SENet.logits` (senet.py lines 509-521).  The avg_pool / dropout /
highway / direct-linear path (lines 510-517) is commented out in the
source; the live statements are `x, _ = self.gru(x)`,
`x = self.attention_layer(x)`, `x = self.last_linear(x)`. -/
def SENet.logits (expf tanhf : ℚ → ℚ)
    (m : SENet bsz cin lin c0 l0 c1 l1 c2 l2 c3 l3 c4 l4)
    (x : Ten3 bsz c4 l4) : Fin bsz → Fin 9 → ℚ :=
  let gruOut := (m.gru x).1
  let attOut := Attention.forward expf tanhf m.attention_layer gruOut
  Linear.applyRows m.last_linear attOut

/-- `SENet.forward` (senet.py lines 523-526): `forward_features` then
`logits`. -/
def SENet.forward (expf tanhf : ℚ → ℚ)
    (m : SENet bsz cin lin c0 l0 c1 l1 c2 l2 c3 l3 c4 l4)
    (x : Ten3 bsz cin lin) : Fin bsz → Fin 9 → ℚ :=
  SENet.logits expf tanhf m (SENet.forward_features m x)

/-- Spec-side restatement of the network topology (spec.md section 4 and
claim C3): a linear classifier applied to additive attention applied to the
first output of the recurrent layer applied to the five residual/SE stages,
with no other stage in between. -/
def SENet.forwardSpec (expf tanhf : ℚ → ℚ)
    (m : SENet bsz cin lin c0 l0 c1 l1 c2 l2 c3 l3 c4 l4)
    (x : Ten3 bsz cin lin) : Fin bsz → Fin 9 → ℚ :=
  Linear.applyRows m.last_linear
    (Attention.forward expf tanhf m.attention_layer
      ((m.gru (m.layer4 (m.layer3 (m.layer2 (m.layer1 (m.layer0 x)))))).1))

/-- Shape `(in_features, out_features)` of the classifier layer constructed
by `SENet.__init__`: senet.py line 461 is `self.last_linear =
nn.Linear(256, 9)`, whatever `num_classes` was passed (the commented-out
line 460 would have used `num_classes`). -/
def SENet.initLastLinear (_num_classes : ℕ) : ℕ × ℕ := (256, 9)

/-- Module kinds reachable from `self.modules()` after `SENet.__init__`
(senet.py lines 339-468): the SENet itself; the Sequential containers of
layer0-layer4 with their Conv1d / BatchNorm1d / ReLU / MaxPool1d members;
the residual blocks (all variants) with their Conv1d / BatchNorm1d / ReLU /
SEModule members, the SEModule holding AdaptiveAvgPool1d / Conv1d / ReLU /
Conv1d / Sigmoid; the SelectAdaptivePool1d stored as avg_pool; the
ModuleList of HighwayMLPs with their Linear members; the Linear classifier;
the LSTM, the GRU and the Attention module.  CBAM_Module and SCSEModule are
defined in the file but never instantiated by SENet (CBAM would also
contribute AdaptiveMaxPool1d, listed here for closure). -/
def SENet.moduleKinds : List TorchModuleKind :=
  [TorchModuleKind.seNet, TorchModuleKind.sequential, TorchModuleKind.conv1d,
   TorchModuleKind.batchNorm1d, TorchModuleKind.relu, TorchModuleKind.maxPool1d,
   TorchModuleKind.seResNetBlock, TorchModuleKind.bottleneck,
   TorchModuleKind.seModule, TorchModuleKind.adaptiveAvgPool1d,
   TorchModuleKind.adaptiveMaxPool1d, TorchModuleKind.sigmoid,
   TorchModuleKind.selectAdaptivePool1d, TorchModuleKind.moduleList,
   TorchModuleKind.highwayMLP, TorchModuleKind.linear, TorchModuleKind.lstm,
   TorchModuleKind.gru, TorchModuleKind.attention]

/-- A concrete HighwayMLP of size 1 (identity activations, zero linear
layers, gate bias filled with -2 as in the constructor). -/
def highwayOne : HighwayMLP 1 :=
  ⟨id, id, ⟨fun _ _ => 0, fun _ => 0⟩, ⟨fun _ _ => 0, fun _ => -2⟩⟩

/-- A concrete SENet instance with every stage shape 1, empty highway list,
zero parameters everywhere. -/
def senetBase : SENet 1 1 1 1 1 1 1 1 1 1 1 1 1 where
  inplanes := 64
  num_classes := 9
  drop_rate := 1 / 5
  layer0 := id
  layer1 := id
  layer2 := id
  layer3 := id
  layer4 := id
  avg_pool := id
  num_features := 512
  highway_number := 2
  highway_layers := []
  last_linear := ⟨fun _ _ => 0, fun _ => 0⟩
  lstm := fun _ => (fun _ _ _ => 0, fun _ _ _ => 0)
  gru := fun _ => (fun _ _ _ => 0, fun _ _ _ => 0)
  attention_layer := ⟨true, fun _ => 0, fun _ => 0⟩

/-- The same SENet instance with a nonempty highway list. -/
def senetWithHighway : SENet 1 1 1 1 1 1 1 1 1 1 1 1 1 :=
  { senetBase with highway_layers := [highwayOne] }

/-- A concrete Bottleneck whose submodules are all the identity and whose
SE module is the identity. -/
def blkIdent : Bottleneck := ⟨id, id, id, id, id, id, id, none⟩

/-- The same Bottleneck with its SE module replaced by a constant-one map. -/
def blkSE : Bottleneck := { blkIdent with se_module := fun _ => fun _ _ _ => 1 }

/-- The zero untyped tensor. -/
def zeroDyn : DynTensor := fun _ _ _ => 0

/-- Concrete Attention instance for the C10 witness: feature_dim 1,
step_dim 2, bias set, zero parameters. -/
def attWit : Attention 1 2 := ⟨true, fun _ => 0, fun _ => 0⟩

/-- Concrete zero input of shape (1, 2, 1) for the C10 witness. -/
def xWit : Ten3 1 2 1 := fun _ _ _ => 0

/-- Concrete Conv1d module record for the C9 witness. -/
def conv1dWit : TorchModule := ⟨TorchModuleKind.conv1d, [5], [3]⟩

/-- C1: the claim says `SENet.forward` returns an output whose last
dimension equals the declared `num_classes` for every value of
`num_classes`.  The constructor hardcodes `nn.Linear(256, 9)` (senet.py
line 461), so the classifier — and hence the forward output, which ends in
`last_linear` — has 9 output features for every `num_classes`; at
`num_classes = 10` the output dimension 9 differs from the declared number
of classes, contradicting the constructor's own docstring ("num_classes:
Number of outputs in last_linear layer"). -/
theorem senet_output_dim_hardcoded_nine :
    (∀ nc : ℕ, SENet.initLastLinear nc = (256, 9))
      ∧ (SENet.initLastLinear 10).2 ≠ 10 :=
  ⟨fun _ => rfl, by decide⟩

/-- C2 counterexample: the claim says every named custom block — in
particular the Highway gating layers — contributes to the value of
`SENet.forward`.  Two concrete SENet instances that differ exactly in
`highway_layers` (empty list versus one HighwayMLP) have identical forward
functions, so the Highway layers contribute nothing. -/
theorem senet_highway_unused_counterexample :
    SENet.forward (fun q => q) (fun q => q) senetWithHighway
        = SENet.forward (fun q => q) (fun q => q) senetBase
      ∧ senetWithHighway.highway_layers ≠ senetBase.highway_layers :=
  ⟨rfl, List.cons_ne_nil highwayOne []⟩

/-- C2 amended: of the named blocks, only the SE modules (inside the
residual blocks) and the additive attention lie on the forward path; CBAM
and SCSE are never instantiated by `SENet`, and the Highway layers (like
`avg_pool`, `lstm`, `drop_rate` and `highway_number`) are constructed but
do not affect `SENet.forward`, which factors exactly through the attention
layer.  First conjunct: forward is invariant under arbitrary replacement of
the unused fields and equals the gru → attention → classifier composition;
second conjunct: a block's output genuinely depends on its `se_module`. -/
theorem senet_forward_participating_blocks :
    (∀ (bsz cin lin c0 l0 c1 l1 c2 l2 c3 l3 c4 l4 : ℕ)
      (expf tanhf : ℚ → ℚ)
      (m : SENet bsz cin lin c0 l0 c1 l1 c2 l2 c3 l3 c4 l4)
      (hw : List (HighwayMLP c4)) (hn : ℕ)
      (ap : Ten3 bsz c4 l4 → Ten3 bsz c4 1)
      (ls : Ten3 bsz c4 l4 → Ten3 bsz c4 256 × Ten3 2 bsz 128)
      (dr : ℚ) (x : Ten3 bsz cin lin),
        SENet.forward expf tanhf
            { m with highway_layers := hw, highway_number := hn,
                     avg_pool := ap, lstm := ls, drop_rate := dr } x
          = Linear.applyRows m.last_linear
              (Attention.forward expf tanhf m.attention_layer
                ((m.gru (SENet.forward_features m x)).1)))
      ∧ Bottleneck.forward blkSE zeroDyn 0 0 0
          ≠ Bottleneck.forward blkIdent zeroDyn 0 0 0 := by
  refine ⟨?_, ?_⟩
  · intros
    rfl
  · norm_num [Bottleneck.forward, blkSE, blkIdent, zeroDyn, dynRelu, relu,
      Pi.add_apply]

/-- C3: `SENet.forward` is exactly the composition
`last_linear ∘ attention_layer ∘ (first output of gru) ∘ layer4 ∘ layer3 ∘
layer2 ∘ layer1 ∘ layer0`, with no other stage in between. -/
theorem senet_forward_eq_spec_composition (expf tanhf : ℚ → ℚ)
    (m : SENet bsz cin lin c0 l0 c1 l1 c2 l2 c3 l3 c4 l4)
    (x : Ten3 bsz cin lin) :
    SENet.forward expf tanhf m x = SENet.forwardSpec expf tanhf m x := rfl

/-- C4 counterexample: the claim says no operation in the repository
performs its own validation; but `SEModule.__init__` asserts
`channels > reduction`, so constructing an SEModule with channels 1 and
reduction 16 fails with the repository's own AssertionError message. -/
theorem semodule_assert_counterexample :
    SEModule.init 1 16 (fun _ _ => 0) (fun _ => 0) (fun _ _ => 0) (fun _ => 0)
      = Except.error
          ("Make sure your input channel bigger than reduction which equals to "
            ++ toString 16) := rfl

/-- C4 amended: the single repository-defined check is the assert in
`SEModule.__init__`: construction succeeds exactly when
channels > reduction, and otherwise raises the repository's own
AssertionError; every other failure is left to the tensor framework. -/
theorem semodule_init_ok_iff (channels reduction : ℕ)
    (w1 : Fin (channels / reduction) → Fin channels → ℚ)
    (b1 : Fin (channels / reduction) → ℚ)
    (w2 : Fin channels → Fin (channels / reduction) → ℚ)
    (b2 : Fin channels → ℚ) :
    (∃ se, SEModule.init channels reduction w1 b1 w2 b2 = Except.ok se)
      ↔ reduction < channels := by
  unfold SEModule.init
  by_cases h : reduction < channels
  · rw [if_pos h]
    exact iff_of_true ⟨⟨w1, b1, w2, b2⟩, rfl⟩ h
  · rw [if_neg h]
    refine iff_of_false ?_ h
    rintro ⟨se, hse⟩
    exact Except.noConfusion hse

/-- C5: `SEModule.forward` rescales each channel of the input by the scalar
gate `sigmoid(fc2(relu(fc1(avg_pool(x)))))` computed from the global
average pool of that input, and changes nothing else: coordinate (bi, i, j)
of the output is the gate of channel i times `x bi i j`. -/
theorem semodule_forward_channel_gate {c r : ℕ} {l : ℕ} (sigmoidf : ℚ → ℚ)
    (se : SEModule c r) (x : Ten3 bsz c l) (bi : Fin bsz) (i : Fin c)
    (j : Fin l) :
    SEModule.forward sigmoidf se x bi i j
      = sigmoidf ((∑ k, se.fc2_weight i k
            * relu ((∑ i2, se.fc1_weight k i2 * ((∑ j2, x bi i2 j2) / (l : ℚ)))
                + se.fc1_bias k))
          + se.fc2_bias i) * x bi i j := by
  unfold SEModule.forward
  ring

/-- C6: for every Bottleneck-derived block, `forward` applies the three
stacked convolutions conv1, conv2, conv3 (each followed by its batch norm,
the first two also by relu), then the SE module, and adds the skip
connection: the result is `relu(se_module(main_path(x)) + residual)` where
the residual is `downsample(x)` when a downsample is set and `x` itself
otherwise. -/
theorem bottleneck_forward_structure (blk : Bottleneck) (x : DynTensor) :
    Bottleneck.forward blk x
      = dynRelu (blk.se_module
            (blk.bn3 (blk.conv3 (dynRelu (blk.bn2 (blk.conv2
              (dynRelu (blk.bn1 (blk.conv1 x))))))))
          + (match blk.downsample with
              | some d => d x
              | none => x)) := by
  obtain ⟨c1, b1, c2, b2, c3, b3, se, ds⟩ := blk
  cases ds <;> rfl

/-- C7: `HighwayMLP.forward` returns, coordinate by coordinate,
`g * H(x) + (1 - g) * x` with transformed signal
`H(x) = activation_function(normal_layer(x))` and learned gate
`g = gate_activation(gate_layer(x))`; the weights on the transformed signal
and on the untransformed input sum to 1. -/
theorem highway_forward_gate_mix {n : ℕ} (h : HighwayMLP n) (x : Fin n → ℚ)
    (i : Fin n) :
    HighwayMLP.forward h x i
        = h.gate_activation (h.gate_layer.apply x) i
              * h.activation_function (h.normal_layer.apply x) i
          + (1 - h.gate_activation (h.gate_layer.apply x) i) * x i
      ∧ h.gate_activation (h.gate_layer.apply x) i
          + (1 - h.gate_activation (h.gate_layer.apply x) i) = 1 := by
  constructor
  · unfold HighwayMLP.forward
    ring
  · ring

/-- C8: for every Attention (with the default bias, as instantiated) and
every input of shape (batch, step_dim, feature_dim) with mask None, the
forward output has shape (batch, feature_dim) and entry (bi, f) equals the
weighted sum over the step dimension of the coefficients times `x bi t f`,
the coefficient of step t being the score `exp(tanh(x_t · weight + b_t))`
divided by the sum of the scores over the step dimension, plus the constant
1e-10. -/
theorem attention_forward_weighted_sum {fd sd : ℕ} (expf tanhf : ℚ → ℚ)
    (w : Fin fd → ℚ) (bv : Fin sd → ℚ) (x : Ten3 bsz sd fd) (bi : Fin bsz)
    (f : Fin fd) :
    Attention.forward expf tanhf ⟨true, w, bv⟩ x bi f
      = ∑ t, (expf (tanhf ((∑ f2, x bi t f2 * w f2) + bv t))
            / (∑ t2, expf (tanhf ((∑ f2, x bi t2 f2 * w f2) + bv t2)))
          + 1 / 10 ^ 10) * x bi t f := by
  unfold Attention.forward Attention.coeffs Attention.expScore Attention.eij
  refine Finset.sum_congr rfl fun t _ => ?_
  simp only [if_true]
  ring

/-- C9: `_weight_init` only matches nn.Conv2d and nn.BatchNorm2d, and every
module reachable from a SENet instance is a 1-D (or parameterless) module,
so the initialization loop in the constructor leaves every module — hence
every parameter — unchanged. -/
theorem weight_init_noop_on_senet (m : TorchModule) (kW : List ℚ)
    (hm : m.kind ∈ SENet.moduleKinds) : weight_init kW m = m := by
  obtain ⟨k, w, b⟩ := m
  cases k
  case conv2d =>
    exact absurd (show TorchModuleKind.conv2d ∈ SENet.moduleKinds from hm)
      (by decide)
  case batchNorm2d =>
    exact absurd (show TorchModuleKind.batchNorm2d ∈ SENet.moduleKinds from hm)
      (by decide)
  all_goals rfl

/-- Witness for C9 at a concrete Conv1d module: it is a SENet module kind
and `_weight_init` leaves it unchanged. -/
theorem weight_init_noop_on_senet_witness :
    conv1dWit.kind ∈ SENet.moduleKinds
      ∧ weight_init [9] conv1dWit = conv1dWit :=
  ⟨by decide, weight_init_noop_on_senet conv1dWit [9] (by decide)⟩

/-- C10: on the mask = None path, the attention coefficients actually used
in the weighted sum do not add up to 1: because 1e-10 is added after the
division, they add up to exactly 1 + step_dim * 1e-10 (in the exact
rational arithmetic of this embedding, given that the framework's exp is
everywhere positive and the step dimension is nonzero), which differs
from 1. -/
theorem attention_coeffs_sum_excess {fd sd : ℕ} (expf tanhf : ℚ → ℚ)
    (att : Attention fd sd) (x : Ten3 bsz sd fd) (bi : Fin bsz)
    (hexp : ∀ q, 0 < expf q) (hsd : 0 < sd) :
    (∑ t, Attention.coeffs expf tanhf att x bi t)
        = 1 + (sd : ℚ) * (1 / 10 ^ 10)
      ∧ (1 : ℚ) + (sd : ℚ) * (1 / 10 ^ 10) ≠ 1 := by
  have hne : (Finset.univ : Finset (Fin sd)).Nonempty :=
    ⟨⟨0, hsd⟩, Finset.mem_univ _⟩
  have hS : 0 < ∑ t2, Attention.expScore expf tanhf att x bi t2 :=
    Finset.sum_pos (fun t _ => hexp _) hne
  have hsdq : (0 : ℚ) < (sd : ℚ) := by exact_mod_cast hsd
  constructor
  · unfold Attention.coeffs
    rw [Finset.sum_add_distrib, ← Finset.sum_div, div_self (ne_of_gt hS),
      Finset.sum_const, Finset.card_univ, Fintype.card_fin, nsmul_eq_mul]
  · have hpos : (0 : ℚ) < (sd : ℚ) * (1 / 10 ^ 10) := by positivity
    intro hcontra
    nlinarith
/-- Witness for C10 at a concrete instance: exp is the constant-one
function (positive everywhere), step_dim is 2, and the coefficients of the
concrete zero input sum to 1 + 2e-10 ≠ 1. -/
theorem attention_coeffs_sum_excess_witness :
    (∀ q : ℚ, 0 < (fun _ : ℚ => (1 : ℚ)) q)
      ∧ (0 : ℕ) < 2
      ∧ ((∑ t, Attention.coeffs (fun _ => 1) (fun q => q) attWit xWit 0 t)
            = 1 + ((2 : ℕ) : ℚ) * (1 / 10 ^ 10)
          ∧ (1 : ℚ) + ((2 : ℕ) : ℚ) * (1 / 10 ^ 10) ≠ 1) :=
  ⟨fun _ => one_pos, by decide,
    attention_coeffs_sum_excess (fun _ => 1) (fun q => q) attWit xWit 0
      (fun _ => one_pos) (by decide)⟩
